import Mathlib

/-!
Verification of the NARPM members scraper (`narpm.py`).

The development shallowly embeds the core of the program:
* the Page Fetcher `NARPMScraper.fetch_page` (lines 56-117), with the HTTP
  layer abstracted as an oracle from the attempt number to the network event;
* the Pagination Driver `NARPMScraper.scrape_all_pages` (lines 119-188), with
  the fetch layer abstracted as an oracle from the offset to the value
  `fetch_page` returns;
* the Result Exporter `save_to_json` (lines 190-213) and `save_to_csv`
  (lines 215-243), with file-system success abstracted as a boolean and the
  timestamp-derived file name as a parameter.

Python values returned by `response.json()` are modelled by the inductive
type `Json`; Python truthiness, iteration, and `dict` key lookup are modelled
explicitly so that the driver's `if page_data:` / `if records:` checks and
`all_data.extend(records)` keep their exact source semantics.
-/

/-- A parsed JSON value, as produced by `response.json()` in `fetch_page`
(line 75).  Numbers are restricted to integers; none of the verified
behaviour depends on non-integral numbers. -/
inductive Json where
  | obj : List (String × Json) → Json
  | arr : List Json → Json
  | str : String → Json
  | num : Int → Json
  | bool : Bool → Json
  | null : Json

/-- Python truthiness of a JSON value: empty containers, empty strings, zero,
`False` and `None` are falsy.  This is the test performed by
`if page_data:` (line 148) and `if records:` (line 157). -/
def truthy : Json → Bool
  | Json.obj fields => !fields.isEmpty
  | Json.arr l => !l.isEmpty
  | Json.str s => !s.isEmpty
  | Json.num n => !(n == 0)
  | Json.bool b => b
  | Json.null => false

/-- Python iteration over a value, as used by `all_data.extend(records)`
(line 158): a list yields its elements, a string its one-character strings, a
dict its keys; other values are not iterable (`extend` raises `TypeError`,
modelled as `none`). -/
def pyElems : Json → Option (List Json)
  | Json.arr l => some l
  | Json.str s => some (s.toList.map fun c => Json.str (String.mk [c]))
  | Json.obj fields => some (fields.map fun kv => Json.str kv.fst)
  | _ => none

/-- The response-shape normalisation of `scrape_all_pages` (lines 150-155):
a dict containing a `"data"` key yields that key's value, a list is used
directly, and otherwise the (truthy) payload is wrapped as a one-element
list.  The result is the Python value bound to `records`. -/
def normRecords : Json → Json
  | Json.obj fields =>
    match fields.lookup "data" with
    | some v => v
    | none =>
      if truthy (Json.obj fields) then Json.arr [Json.obj fields] else Json.arr []
  | Json.arr l => Json.arr l
  | v => if truthy v then Json.arr [v] else Json.arr []

/-- The four ways the driver can react to the value returned by one
`fetch_page` call (lines 148-172). -/
inductive PageClass where
  | success (records : List Json)
  | empty
  | failure
  | crash

/-- Record list carried by a `success` classification. -/
def PageClass.records : PageClass → List Json
  | PageClass.success l => l
  | _ => []

/-- Tag test for the `empty` classification. -/
def PageClass.isEmptyTag : PageClass → Bool
  | PageClass.empty => true
  | _ => false

/-- Tag test for the `failure` classification. -/
def PageClass.isFailTag : PageClass → Bool
  | PageClass.failure => true
  | _ => false

/-- Tag test for the `success` classification. -/
def PageClass.isSuccTag : PageClass → Bool
  | PageClass.success _ => true
  | _ => false

/-- Classification of one page outcome by the driver (lines 148-172):
`page_data` falsy (including `None`) is the `else` branch counting a failed
call; a truthy payload is normalised to `records`; truthy `records` are
extended into `all_data` (a non-iterable value would raise), and falsy
`records` count as an empty response. -/
def classify : Option Json → PageClass
  | some pd =>
    if truthy pd then
      if truthy (normRecords pd) then
        match pyElems (normRecords pd) with
        | some elems => PageClass.success elems
        | none => PageClass.crash
      else PageClass.empty
    else PageClass.failure
  | none => PageClass.failure

/-- The driver's run counters and accumulated records (`self.all_data` and
lines 136-138). -/
structure RunState where
  all_data : List Json
  successful_calls : Nat
  failed_calls : Nat
  empty_responses : Nat

/-- Result of processing one page: keep looping, `break` out of the loop, or
propagate a Python exception. -/
inductive StepOut where
  | next (st : RunState)
  | halt (st : RunState)
  | crash

/-- One iteration of the driver's `for` body after `fetch_page` returned
(lines 148-172), dispatching on the classification: a success extends
`all_data` and bumps `successful_calls` (lines 158-159); an empty response
bumps `empty_responses` and breaks at 3 (lines 162-166); a failure bumps
`failed_calls` and breaks at 10 (lines 168-172). -/
def pageStep (st : RunState) (page_data : Option Json) : StepOut :=
  match classify page_data with
  | PageClass.success elems =>
    StepOut.next { st with all_data := st.all_data ++ elems,
                           successful_calls := st.successful_calls + 1 }
  | PageClass.empty =>
    let st1 := { st with empty_responses := st.empty_responses + 1 }
    if 3 ≤ st1.empty_responses then StepOut.halt st1 else StepOut.next st1
  | PageClass.failure =>
    let st1 := { st with failed_calls := st.failed_calls + 1 }
    if 10 ≤ st1.failed_calls then StepOut.halt st1 else StepOut.next st1
  | PageClass.crash => StepOut.crash

/-- Outcome of a driver run: the final state (`none` when a Python exception
escaped the loop) together with the list of offsets for which `fetch_page`
was invoked, in order. -/
structure ScrapeOut where
  final : Option RunState
  trace : List Nat

/-- The driver's `for page in range(actual_pages)` loop (lines 140-172),
given the remaining page numbers.  Each iteration fetches
`offset = page * limit` (line 141) and processes the outcome; `break`
stops the traversal. -/
def scrapeLoop (fetchO : Nat → Option Json) (limit : Nat) :
    List Nat → RunState → ScrapeOut
  | [], st => { final := some st, trace := [] }
  | page :: rest, st =>
    match pageStep st (fetchO (page * limit)) with
    | StepOut.next st1 =>
      { final := (scrapeLoop fetchO limit rest st1).final,
        trace := page * limit :: (scrapeLoop fetchO limit rest st1).trace }
    | StepOut.halt st1 => { final := some st1, trace := [page * limit] }
    | StepOut.crash => { final := none, trace := [page * limit] }

/-- The call budget of `scrape_all_pages` (lines 130-131):
`estimated_total_records = total_pages * 12` and
`actual_pages = (estimated_total_records + limit - 1) // limit`. -/
def actualPages (limit total_pages : Nat) : Nat :=
  (total_pages * 12 + limit - 1) / limit

/-- A fresh scraper state: `self.all_data = []` from `__init__` (line 39)
and the counters zeroed at the start of a run (lines 136-138). -/
def initialRunState : RunState :=
  { all_data := [], successful_calls := 0, failed_calls := 0,
    empty_responses := 0 }

/-- `NARPMScraper.scrape_all_pages` (lines 119-188): run the pagination loop
over pages `0 .. actual_pages - 1` starting from a fresh scraper state. -/
def scrape_all_pages (fetchO : Nat → Option Json) (limit total_pages : Nat) :
    ScrapeOut :=
  scrapeLoop fetchO limit (List.range (actualPages limit total_pages))
    initialRunState

/-- A network event observed by one request inside `fetch_page`: an HTTP
response with a status code (its body, parsed by `response.json()`, is
`none` when the body is not valid JSON, which raises and lands in the
generic handler), a timeout, a connection error, or any other exception. -/
inductive HttpEvent where
  | response (code : Nat) (body : Option Json)
  | timeout
  | connError
  | otherError

/-- Test for an HTTP 429 response. -/
def is429 : HttpEvent → Bool
  | HttpEvent.response code _ => code == 429
  | _ => false

/-- Observable effects of one `fetch_page` invocation: the returned value,
the sleeps performed in seconds, and the `(offset, retry_count)` of each
HTTP request issued, in order. -/
structure FetchResult where
  result : Option Json
  waits : List Nat
  calls : List (Nat × Nat)

/-- Whether Python `len(v)` succeeds for the value: lists, dicts and strings
are sized; numbers, booleans and `None` raise `TypeError`. -/
def hasLen : Json → Bool
  | Json.obj _ => true
  | Json.arr _ => true
  | Json.str _ => true
  | _ => false

/-- Whether the success-log expression of `fetch_page` line 76,
`len(data.get('data', data)) if isinstance(data, (dict, list)) else 1`,
evaluates without raising: a bare list reaches `data.get` and raises
`AttributeError` (lists have no `get`); a dict evaluates `len` of its
`"data"` value when that key is present (raising `TypeError` when the value
is unsized) and of the dict itself otherwise; any non-dict, non-list value
skips the call entirely.  When this is false the exception is caught by the
generic handler at line 115 and `fetch_page` returns `None`. -/
def logLenOk : Json → Bool
  | Json.obj fields =>
    match fields.lookup "data" with
    | some v => hasLen v
    | none => true
  | Json.arr _ => false
  | _ => true

/-- `NARPMScraper.fetch_page` (lines 56-117) over an oracle giving the
network event of each attempt.  HTTP 200 logs the record count and returns
the parsed body (lines 76-77) — but the log expression itself raises on a
bare list body and on a dict whose `"data"` value has no length, in which
case the generic handler at line 115 returns `None` (see `logLenOk`);
HTTP 429 sleeps `min(10 * 2 ** retry_count, 60)` and retries while
`retry_count < 3` (lines 79-85); HTTP 500/502/503/504 sleeps
`5 * (retry_count + 1)` and retries while `retry_count < 2` (lines 87-95);
a timeout sleeps 2 and a connection error sleeps 5, both retrying while
`retry_count < 2` (lines 101-113); anything else returns `None`
immediately (lines 97-99, 115-117). -/
def fetch_page (oracle : Nat → HttpEvent) (offset retry_count : Nat) :
    FetchResult :=
  match oracle retry_count with
  | HttpEvent.response code body =>
    if code = 200 then
      { result := match body with
          | some data => if logLenOk data then some data else none
          | none => none,
        waits := [], calls := [(offset, retry_count)] }
    else if code = 429 then
      if _h : retry_count < 3 then
        { result := (fetch_page oracle offset (retry_count + 1)).result,
          waits := min (10 * 2 ^ retry_count) 60 ::
            (fetch_page oracle offset (retry_count + 1)).waits,
          calls := (offset, retry_count) ::
            (fetch_page oracle offset (retry_count + 1)).calls }
      else
        { result := none, waits := [min (10 * 2 ^ retry_count) 60],
          calls := [(offset, retry_count)] }
    else if code = 500 ∨ code = 502 ∨ code = 503 ∨ code = 504 then
      if _h : retry_count < 2 then
        { result := (fetch_page oracle offset (retry_count + 1)).result,
          waits := 5 * (retry_count + 1) ::
            (fetch_page oracle offset (retry_count + 1)).waits,
          calls := (offset, retry_count) ::
            (fetch_page oracle offset (retry_count + 1)).calls }
      else
        { result := none, waits := [], calls := [(offset, retry_count)] }
    else
      { result := none, waits := [], calls := [(offset, retry_count)] }
  | HttpEvent.timeout =>
    if _h : retry_count < 2 then
      { result := (fetch_page oracle offset (retry_count + 1)).result,
        waits := 2 :: (fetch_page oracle offset (retry_count + 1)).waits,
        calls := (offset, retry_count) ::
          (fetch_page oracle offset (retry_count + 1)).calls }
    else
      { result := none, waits := [], calls := [(offset, retry_count)] }
  | HttpEvent.connError =>
    if _h : retry_count < 2 then
      { result := (fetch_page oracle offset (retry_count + 1)).result,
        waits := 5 :: (fetch_page oracle offset (retry_count + 1)).waits,
        calls := (offset, retry_count) ::
          (fetch_page oracle offset (retry_count + 1)).calls }
    else
      { result := none, waits := [], calls := [(offset, retry_count)] }
  | HttpEvent.otherError =>
    { result := none, waits := [], calls := [(offset, retry_count)] }
termination_by 4 - retry_count
decreasing_by all_goals omega

/-- Keys of one record, as `record.keys()` for a dict (line 230); non-dict
records contribute no keys. -/
def recordKeys : Json → List String
  | Json.obj fields => fields.map fun kv => kv.fst
  | _ => []

/-- The set of keys collected across all records (lines 227-230), as a
duplicate-free list. -/
def allKeys (data : List Json) : List String :=
  ((data.map recordKeys).flatten).dedup

/-- The CSV field names, `sorted(all_keys)` (line 234). -/
def csvHeader (data : List Json) : List String :=
  (allKeys data).insertionSort (· ≤ ·)

/-- One CSV row as `csv.DictWriter` renders a record: for each field name
the record's value, `none` rendering as the empty cell for a missing key;
a non-dict record raises inside `writerows` (modelled as `none`). -/
def rowCells (header : List String) : Json → Option (List (Option Json))
  | Json.obj fields => some (header.map fun k => fields.lookup k)
  | _ => none

/-- Content of the CSV file written by `save_to_csv`: the header row and the
data rows, in order. -/
structure CsvFile where
  header : List String
  rows : List (List (Option Json))

/-- `NARPMScraper.save_to_csv` (lines 215-243): empty data returns `""`
without touching the file system (lines 217-219); otherwise the key union is
computed and, when the file can be written (`writeOk`), the header and one
row per record are emitted — an empty key set writes an empty file
(line 233) and a non-dict record raises mid-write; any exception in the
`try` block is caught and `""` is returned (lines 241-243).  The returned
pair is (returned filename, file content). -/
def save_to_csv (data : List Json) (filename : String) (writeOk : Bool) :
    String × Option CsvFile :=
  if data.isEmpty then ("", none)
  else if writeOk then
    if (csvHeader data).isEmpty then (filename, some { header := [], rows := [] })
    else
      match data.mapM (rowCells (csvHeader data)) with
      | some rows => (filename, some { header := csvHeader data, rows := rows })
      | none => ("", none)
  else ("", none)

/-- `NARPMScraper.save_to_json` (lines 190-213): when the file can be
written, dump the metadata envelope of lines 198-206 and return the
filename; any exception is caught and `""` is returned (lines 211-213). -/
def save_to_json (data : List Json) (filename now : String) (limit : Nat)
    (delayCfg : Json) (writeOk : Bool) : String × Option Json :=
  if writeOk then
    (filename,
     some (Json.obj
       [("scraped_at", Json.str now),
        ("total_records", Json.num (Int.ofNat data.length)),
        ("scraper_config",
         Json.obj [("limit", Json.num (Int.ofNat limit)), ("delay", delayCfg)]),
        ("data", Json.arr data)]))
  else ("", none)

/-- Number of pages among loop positions `s, s+1, ..., s+n-1` whose outcome
the driver classifies as an empty response. -/
def countEmptyIn (fetchO : Nat → Option Json) (limit s n : Nat) : Nat :=
  (List.range' s n).countP fun j => (classify (fetchO (j * limit))).isEmptyTag

/-- Number of pages among loop positions `s, s+1, ..., s+n-1` whose outcome
the driver classifies as a failed call. -/
def countFailIn (fetchO : Nat → Option Json) (limit s n : Nat) : Nat :=
  (List.range' s n).countP fun j => (classify (fetchO (j * limit))).isFailTag

/-- Number of pages among loop positions `s, s+1, ..., s+n-1` whose outcome
the driver classifies as a success. -/
def countSuccIn (fetchO : Nat → Option Json) (limit s n : Nat) : Nat :=
  (List.range' s n).countP fun j => (classify (fetchO (j * limit))).isSuccTag

/-- Concatenation, in page order, of the record lists of the pages among
loop positions `s, ..., s+n-1` classified as successes. -/
def recordsJoin (fetchO : Nat → Option Json) (limit s n : Nat) : List Json :=
  ((List.range' s n).map fun j => (classify (fetchO (j * limit))).records).flatten

theorem countEmptyIn_zero (fetchO : Nat → Option Json) (limit s : Nat) :
    countEmptyIn fetchO limit s 0 = 0 := rfl

theorem countFailIn_zero (fetchO : Nat → Option Json) (limit s : Nat) :
    countFailIn fetchO limit s 0 = 0 := rfl

theorem countSuccIn_zero (fetchO : Nat → Option Json) (limit s : Nat) :
    countSuccIn fetchO limit s 0 = 0 := rfl

theorem recordsJoin_zero (fetchO : Nat → Option Json) (limit s : Nat) :
    recordsJoin fetchO limit s 0 = [] := rfl

theorem countEmptyIn_succ (fetchO : Nat → Option Json) (limit s n : Nat) :
    countEmptyIn fetchO limit s (n + 1)
      = countEmptyIn fetchO limit (s + 1) n
        + (if (classify (fetchO (s * limit))).isEmptyTag then 1 else 0) := by
  simp [countEmptyIn, List.range'_succ, List.countP_cons]

theorem countFailIn_succ (fetchO : Nat → Option Json) (limit s n : Nat) :
    countFailIn fetchO limit s (n + 1)
      = countFailIn fetchO limit (s + 1) n
        + (if (classify (fetchO (s * limit))).isFailTag then 1 else 0) := by
  simp [countFailIn, List.range'_succ, List.countP_cons]

theorem countSuccIn_succ (fetchO : Nat → Option Json) (limit s n : Nat) :
    countSuccIn fetchO limit s (n + 1)
      = countSuccIn fetchO limit (s + 1) n
        + (if (classify (fetchO (s * limit))).isSuccTag then 1 else 0) := by
  simp [countSuccIn, List.range'_succ, List.countP_cons]

theorem recordsJoin_succ (fetchO : Nat → Option Json) (limit s n : Nat) :
    recordsJoin fetchO limit s (n + 1)
      = (classify (fetchO (s * limit))).records
        ++ recordsJoin fetchO limit (s + 1) n := by
  simp [recordsJoin, List.range'_succ]

/-- The trace of fetched offsets is always `page * limit` for the initial
segment of consecutive page numbers the loop actually visited, and its
length never exceeds the number of remaining pages. -/
theorem scrapeLoop_trace_shape (fetchO : Nat → Option Json) (limit : Nat) :
    ∀ (n s : Nat) (st : RunState),
      (scrapeLoop fetchO limit (List.range' s n) st).trace
        = (List.range' s
            (scrapeLoop fetchO limit (List.range' s n) st).trace.length).map
            (fun i => i * limit)
      ∧ (scrapeLoop fetchO limit (List.range' s n) st).trace.length ≤ n := by
  intro n
  induction n with
  | zero => intro s st; simp [scrapeLoop]
  | succ n ih =>
    intro s st
    rw [List.range'_succ]
    cases hps : pageStep st (fetchO (s * limit)) with
    | next st1 =>
      have h := ih (s + 1) st1
      simp only [scrapeLoop, hps, List.length_cons]
      refine ⟨?_, by omega⟩
      rw [List.range'_succ, List.map_cons]
      exact congrArg (List.cons (s * limit)) h.1
    | halt st1 =>
      simp [scrapeLoop, hps, List.range'_succ]
    | crash =>
      simp [scrapeLoop, hps, List.range'_succ]

/-- When the loop returns a final state, each counter equals its initial
value plus the number of processed pages in the matching class, and the
aggregate equals the initial aggregate followed by the concatenated records
of the processed successful pages. -/
theorem scrapeLoop_final_counts (fetchO : Nat → Option Json) (limit : Nat) :
    ∀ (n s : Nat) (st st' : RunState),
      (scrapeLoop fetchO limit (List.range' s n) st).final = some st' →
      st'.all_data = st.all_data ++ recordsJoin fetchO limit s
          (scrapeLoop fetchO limit (List.range' s n) st).trace.length
      ∧ st'.successful_calls = st.successful_calls + countSuccIn fetchO limit s
          (scrapeLoop fetchO limit (List.range' s n) st).trace.length
      ∧ st'.failed_calls = st.failed_calls + countFailIn fetchO limit s
          (scrapeLoop fetchO limit (List.range' s n) st).trace.length
      ∧ st'.empty_responses = st.empty_responses + countEmptyIn fetchO limit s
          (scrapeLoop fetchO limit (List.range' s n) st).trace.length := by
  intro n
  induction n with
  | zero =>
    intro s st st' h
    simp only [List.range'] at *
    simp only [scrapeLoop, Option.some.injEq] at h
    subst h
    simp [scrapeLoop, countEmptyIn_zero, countFailIn_zero, countSuccIn_zero,
      recordsJoin_zero]
  | succ n ih =>
    intro s st st' h
    rw [List.range'_succ] at h ⊢
    cases hc : classify (fetchO (s * limit)) with
    | success elems =>
      simp only [scrapeLoop, pageStep, hc] at h ⊢
      obtain ⟨h1, h2, h3, h4⟩ := ih (s + 1) _ st' h
      simp only [List.length_cons, countEmptyIn_succ, countFailIn_succ,
        countSuccIn_succ, recordsJoin_succ, hc, PageClass.isEmptyTag,
        PageClass.isFailTag, PageClass.isSuccTag, PageClass.records] at *
      refine ⟨?_, ?_, ?_, ?_⟩
      · rw [h1]; simp
      · rw [h2]; simp; omega
      · rw [h3]; simp
      · rw [h4]; simp
    | empty =>
      simp only [scrapeLoop, pageStep, hc] at h ⊢
      by_cases h3le : 3 ≤ st.empty_responses + 1
      · simp only [h3le, if_true] at h ⊢
        simp only [Option.some.injEq] at h
        subst h
        simp only [List.length_cons, List.length_nil, countEmptyIn_succ,
          countFailIn_succ, countSuccIn_succ, recordsJoin_succ, hc,
          PageClass.isEmptyTag, PageClass.isFailTag, PageClass.isSuccTag,
          PageClass.records, countEmptyIn_zero, countFailIn_zero,
          countSuccIn_zero, recordsJoin_zero]
        simp
      · simp only [h3le, if_false] at h ⊢
        obtain ⟨h1, h2, h3, h4⟩ := ih (s + 1) _ st' h
        simp only [List.length_cons, countEmptyIn_succ, countFailIn_succ,
          countSuccIn_succ, recordsJoin_succ, hc, PageClass.isEmptyTag,
          PageClass.isFailTag, PageClass.isSuccTag, PageClass.records] at *
        refine ⟨?_, ?_, ?_, ?_⟩
        · rw [h1]; simp
        · rw [h2]; simp
        · rw [h3]; simp
        · rw [h4]; simp; omega
    | failure =>
      simp only [scrapeLoop, pageStep, hc] at h ⊢
      by_cases h10le : 10 ≤ st.failed_calls + 1
      · simp only [h10le, if_true] at h ⊢
        simp only [Option.some.injEq] at h
        subst h
        simp only [List.length_cons, List.length_nil, countEmptyIn_succ,
          countFailIn_succ, countSuccIn_succ, recordsJoin_succ, hc,
          PageClass.isEmptyTag, PageClass.isFailTag, PageClass.isSuccTag,
          PageClass.records, countEmptyIn_zero, countFailIn_zero,
          countSuccIn_zero, recordsJoin_zero]
        simp
      · simp only [h10le, if_false] at h ⊢
        obtain ⟨h1, h2, h3, h4⟩ := ih (s + 1) _ st' h
        simp only [List.length_cons, countEmptyIn_succ, countFailIn_succ,
          countSuccIn_succ, recordsJoin_succ, hc, PageClass.isEmptyTag,
          PageClass.isFailTag, PageClass.isSuccTag, PageClass.records] at *
        refine ⟨?_, ?_, ?_, ?_⟩
        · rw [h1]; simp
        · rw [h2]; simp
        · rw [h3]; simp; omega
        · rw [h4]; simp
    | crash =>
      simp only [scrapeLoop, pageStep, hc] at h
      exact Option.noConfusion h

/-- Any page the loop processed without stopping had not yet tripped either
stop condition: if that page was classified empty, the empty-response
counter after it was still below 3, and if it was classified as a failure,
the failure counter after it was still below 10. -/
theorem scrapeLoop_no_early_stop (fetchO : Nat → Option Json) (limit : Nat) :
    ∀ (n s : Nat) (st : RunState) (i : Nat),
      i + 1 < (scrapeLoop fetchO limit (List.range' s n) st).trace.length →
      ((classify (fetchO ((s + i) * limit))).isEmptyTag = true →
        st.empty_responses + countEmptyIn fetchO limit s (i + 1) < 3)
      ∧ ((classify (fetchO ((s + i) * limit))).isFailTag = true →
        st.failed_calls + countFailIn fetchO limit s (i + 1) < 10) := by
  intro n
  induction n with
  | zero => intro s st i h; simp [scrapeLoop] at h
  | succ n ih =>
    intro s st i h
    rw [List.range'_succ] at h
    cases hc : classify (fetchO (s * limit)) with
    | success elems =>
      simp only [scrapeLoop, pageStep, hc, List.length_cons] at h
      cases i with
      | zero =>
        simp only [Nat.add_zero, hc]
        exact ⟨fun hab => by simp [PageClass.isEmptyTag] at hab,
               fun hab => by simp [PageClass.isFailTag] at hab⟩
      | succ j =>
        have hj := ih (s + 1)
          { all_data := st.all_data ++ elems,
            successful_calls := st.successful_calls + 1,
            failed_calls := st.failed_calls,
            empty_responses := st.empty_responses } j (by omega)
        have hidx : s + 1 + j = s + (j + 1) := by omega
        rw [hidx] at hj
        refine ⟨fun he => ?_, fun hf => ?_⟩
        · have := hj.1 he
          rw [countEmptyIn_succ]
          simp only [hc, PageClass.isEmptyTag, if_false, Bool.false_eq_true,
            reduceIte] at *
          omega
        · have := hj.2 hf
          rw [countFailIn_succ]
          simp only [hc, PageClass.isFailTag, if_false, Bool.false_eq_true,
            reduceIte] at *
          omega
    | empty =>
      simp only [scrapeLoop, pageStep, hc] at h
      by_cases h3le : 3 ≤ st.empty_responses + 1
      · simp only [h3le, if_true, List.length_cons, List.length_nil] at h
        omega
      · simp only [h3le, if_false, List.length_cons] at h
        cases i with
        | zero =>
          simp only [Nat.add_zero, hc]
          refine ⟨fun _ => ?_, fun hab => by simp [PageClass.isFailTag] at hab⟩
          rw [countEmptyIn_succ, countEmptyIn_zero]
          simp only [hc, PageClass.isEmptyTag, if_true]
          omega
        | succ j =>
          have hj := ih (s + 1)
            { all_data := st.all_data,
              successful_calls := st.successful_calls,
              failed_calls := st.failed_calls,
              empty_responses := st.empty_responses + 1 } j (by omega)
          have hidx : s + 1 + j = s + (j + 1) := by omega
          rw [hidx] at hj
          refine ⟨fun he => ?_, fun hf => ?_⟩
          · have := hj.1 he
            rw [countEmptyIn_succ]
            simp only [hc, PageClass.isEmptyTag, if_true] at *
            omega
          · have := hj.2 hf
            rw [countFailIn_succ]
            simp only [hc, PageClass.isFailTag, if_false, Bool.false_eq_true,
              reduceIte] at *
            omega
    | failure =>
      simp only [scrapeLoop, pageStep, hc] at h
      by_cases h10le : 10 ≤ st.failed_calls + 1
      · simp only [h10le, if_true, List.length_cons, List.length_nil] at h
        omega
      · simp only [h10le, if_false, List.length_cons] at h
        cases i with
        | zero =>
          simp only [Nat.add_zero, hc]
          refine ⟨fun hab => by simp [PageClass.isEmptyTag] at hab, fun _ => ?_⟩
          rw [countFailIn_succ, countFailIn_zero]
          simp only [hc, PageClass.isFailTag, if_true]
          omega
        | succ j =>
          have hj := ih (s + 1)
            { all_data := st.all_data,
              successful_calls := st.successful_calls,
              failed_calls := st.failed_calls + 1,
              empty_responses := st.empty_responses } j (by omega)
          have hidx : s + 1 + j = s + (j + 1) := by omega
          rw [hidx] at hj
          refine ⟨fun he => ?_, fun hf => ?_⟩
          · have := hj.1 he
            rw [countEmptyIn_succ]
            simp only [hc, PageClass.isEmptyTag, if_false, Bool.false_eq_true,
              reduceIte] at *
            omega
          · have := hj.2 hf
            rw [countFailIn_succ]
            simp only [hc, PageClass.isFailTag, if_true] at *
            omega
    | crash =>
      simp only [scrapeLoop, pageStep, hc, List.length_cons, List.length_nil] at h
      omega

/-- A run that returned a final state after fewer iterations than the page
budget stopped through one of the two `break` statements, so its final
counters witness the tripped threshold. -/
theorem scrapeLoop_stop_reason (fetchO : Nat → Option Json) (limit : Nat) :
    ∀ (n s : Nat) (st st' : RunState),
      (scrapeLoop fetchO limit (List.range' s n) st).final = some st' →
      (scrapeLoop fetchO limit (List.range' s n) st).trace.length < n →
      3 ≤ st'.empty_responses ∨ 10 ≤ st'.failed_calls := by
  intro n
  induction n with
  | zero => intro s st st' _ hlen; omega
  | succ n ih =>
    intro s st st' h hlen
    rw [List.range'_succ] at h hlen
    cases hc : classify (fetchO (s * limit)) with
    | success elems =>
      simp only [scrapeLoop, pageStep, hc, List.length_cons] at h hlen
      exact ih (s + 1) _ st' h (by omega)
    | empty =>
      simp only [scrapeLoop, pageStep, hc] at h hlen
      by_cases h3le : 3 ≤ st.empty_responses + 1
      · simp only [h3le, if_true, Option.some.injEq] at h
        subst h
        exact Or.inl h3le
      · simp only [h3le, if_false, List.length_cons] at h hlen
        exact ih (s + 1) _ st' h (by omega)
    | failure =>
      simp only [scrapeLoop, pageStep, hc] at h hlen
      by_cases h10le : 10 ≤ st.failed_calls + 1
      · simp only [h10le, if_true, Option.some.injEq] at h
        subst h
        exact Or.inr h10le
      · simp only [h10le, if_false, List.length_cons] at h hlen
        exact ih (s + 1) _ st' h (by omega)
    | crash =>
      simp only [scrapeLoop, pageStep, hc] at h
      exact Option.noConfusion h
/-- Within one `fetch_page` invocation entered at `retry_count = a ≤ 3`, at
most `4 - a` HTTP requests are issued: every retry strictly increases the
retry counter and the most permissive retry guard is `retry_count < 3`. -/
theorem fetch_page_calls_bound (oracle : Nat → HttpEvent) (offset : Nat) :
    ∀ (n a : Nat), 4 - a ≤ n → a ≤ 3 →
      (fetch_page oracle offset a).calls.length ≤ 4 - a := by
  intro n
  induction n with
  | zero => intro a h1 h2; omega
  | succ n ih =>
    intro a h1 h2
    unfold fetch_page
    cases ho : oracle a with
    | response code body =>
      by_cases h200 : code = 200
      · subst h200
        simp
        omega
      · by_cases h429 : code = 429
        · subst h429
          by_cases ha3 : a < 3
          · have hr := ih (a + 1) (by omega) (by omega)
            simp [ha3]
            omega
          · simp [ha3]
            omega
        · by_cases h5xx : code = 500 ∨ code = 502 ∨ code = 503 ∨ code = 504
          · by_cases ha2 : a < 2
            · have hr := ih (a + 1) (by omega) (by omega)
              simp [h200, h429, h5xx, ha2]
              omega
            · simp [h200, h429, h5xx, ha2]
              omega
          · simp [h200, h429, h5xx]
            omega
    | timeout =>
      by_cases ha2 : a < 2
      · have hr := ih (a + 1) (by omega) (by omega)
        simp [ha2]
        omega
      · simp [ha2]
        omega
    | connError =>
      by_cases ha2 : a < 2
      · have hr := ih (a + 1) (by omega) (by omega)
        simp [ha2]
        omega
      · simp [ha2]
        omega
    | otherError =>
      simp
      omega

/-- When no attempt ever observes HTTP 429, `fetch_page` entered at
`retry_count = a ≤ 2` issues at most `3 - a` HTTP requests: all remaining
retry guards are `retry_count < 2`. -/
theorem fetch_page_calls_bound_no429 (oracle : Nat → HttpEvent) (offset : Nat)
    (hno : ∀ k, is429 (oracle k) = false) :
    ∀ (n a : Nat), 3 - a ≤ n → a ≤ 2 →
      (fetch_page oracle offset a).calls.length ≤ 3 - a := by
  intro n
  induction n with
  | zero => intro a h1 h2; omega
  | succ n ih =>
    intro a h1 h2
    unfold fetch_page
    cases ho : oracle a with
    | response code body =>
      by_cases h200 : code = 200
      · subst h200
        simp
        omega
      · by_cases h429 : code = 429
        · exfalso
          have hk := hno a
          rw [ho] at hk
          subst h429
          simp [is429] at hk
        · by_cases h5xx : code = 500 ∨ code = 502 ∨ code = 503 ∨ code = 504
          · by_cases ha2 : a < 2
            · have hr := ih (a + 1) (by omega) (by omega)
              simp [h200, h429, h5xx, ha2]
              omega
            · simp [h200, h429, h5xx, ha2]
              omega
          · simp [h200, h429, h5xx]
            omega
    | timeout =>
      by_cases ha2 : a < 2
      · have hr := ih (a + 1) (by omega) (by omega)
        simp [ha2]
        omega
      · simp [ha2]
        omega
    | connError =>
      by_cases ha2 : a < 2
      · have hr := ih (a + 1) (by omega) (by omega)
        simp [ha2]
        omega
      · simp [ha2]
        omega
    | otherError =>
      simp
      omega

/-- Normalisation of an HTTP 200 payload as the specification words it:
a mapping containing a records (`"data"`) field yields that field's
sequence, a bare sequence is used directly, and any other payload becomes a
one-element list containing it.  The specification presumes the records
field holds a sequence; for a non-sequence value this definition keeps that
value as a single record, a case excluded by `dataFieldOk` wherever this
definition is compared with the code. -/
def specNormalize : Json → List Json
  | Json.obj fields =>
    match fields.lookup "data" with
    | some (Json.arr l) => l
    | some v => [v]
    | none => [Json.obj fields]
  | Json.arr l => l
  | v => [v]

/-- Classification of an HTTP 200 payload as the claim states it: `Empty`
exactly when the normalised record list is empty, `Success` otherwise. -/
def specClassify (pd : Json) : PageClass :=
  if (specNormalize pd).isEmpty then PageClass.empty
  else PageClass.success (specNormalize pd)

/-- Holds when the payload's records (`"data"`) field, if present, is a
sequence — the only shape the specification's normalisation rule speaks
about. -/
def dataFieldOk : Json → Bool
  | Json.obj fields =>
    match fields.lookup "data" with
    | some (Json.arr _) => true
    | some _ => false
    | none => true
  | _ => true

/-- Classification of an HTTP 200 body as the amended claim states it: a
bare sequence body becomes a failed call (the success-log line of
`fetch_page` raises on it and `None` reaches the driver), a falsy body
becomes a failed call (it fails the driver's `if page_data:` test), and
every other body is normalised per the specification's rule and classified
`Empty` exactly when the normalised record list is empty, `Success`
otherwise. -/
def classify200Amended : Json → PageClass
  | Json.arr _ => PageClass.failure
  | pd => if truthy pd then specClassify pd else PageClass.failure

theorem lookup_ne_nil {fields : List (String × Json)} {v : Json}
    (h : fields.lookup "data" = some v) : fields.isEmpty = false := by
  cases fields with
  | nil => simp [List.lookup] at h
  | cons kv rest => rfl

/-- The computed call budget is the exact ceiling of
`total_pages * 12 / limit`: it covers the estimated record count and is the
least page count that does. -/
theorem actualPages_ceil (limit tp : Nat) (h : 0 < limit) :
    tp * 12 ≤ actualPages limit tp * limit
    ∧ ∀ m, tp * 12 ≤ m * limit → actualPages limit tp ≤ m := by
  have hsub : tp * 12 + limit - 1 = tp * 12 + (limit - 1) := by omega
  constructor
  · have hd : tp * 12 + limit - 1 ≤ limit * actualPages limit tp + (limit - 1) :=
      (Nat.div_le_iff_le_mul_add_pred h).mp (le_refl (actualPages limit tp))
    rw [hsub] at hd
    have h3 : tp * 12 ≤ limit * actualPages limit tp :=
      Nat.le_of_add_le_add_right hd
    rw [Nat.mul_comm limit (actualPages limit tp)] at h3
    exact h3
  · intro m hm
    refine (Nat.div_le_iff_le_mul_add_pred h).mpr ?_
    rw [hsub, Nat.mul_comm limit m] at *
    exact Nat.add_le_add_right hm (limit - 1)

theorem scrape_all_pages_eq (fetchO : Nat → Option Json) (limit tp : Nat) :
    scrape_all_pages fetchO limit tp
      = scrapeLoop fetchO limit (List.range' 0 (actualPages limit tp))
          initialRunState := by
  unfold scrape_all_pages
  rw [List.range_eq_range']

/-- Fetch oracle exhibiting the C1 divergence: offsets 0, 12 and 36 return a
dict whose `"data"` list is empty (classified as empty responses) while
offset 24 returns one record (a non-empty success). -/
def c1Oracle : Nat → Option Json := fun offset =>
  if offset == 24 then some (Json.obj [("data", Json.arr [Json.str "r"])])
  else some (Json.obj [("data", Json.arr [])])

/-- C1: the claim says `consecutive_empty_responses` is reset to zero on any
non-empty success.  The code never resets it: with `limit = 12` and
`total_pages = 5` (budget 5 pages) the run sees empty, empty, success,
empty — after which the counter is already 3 and the loop stops, fetching
only offsets 0, 12, 24, 36 and never offset 48, even though the page at
offset 24 was a non-empty success.  Under the claimed reset the counter
would be 1 after the fourth page and the run would have continued. -/
theorem claim_C1_code_eval :
    (scrape_all_pages c1Oracle 12 5).trace = [0, 12, 24, 36]
    ∧ (scrape_all_pages c1Oracle 12 5).final
        = some { all_data := [Json.str "r"], successful_calls := 1,
                 failed_calls := 0, empty_responses := 3 }
    ∧ (classify (c1Oracle 24)).isSuccTag = true
    ∧ actualPages 12 5 = 5 :=
  ⟨rfl, rfl, rfl, rfl⟩

/-- C2 (amended): for an HTTP 200 response whose body's records field, if
present, holds a sequence, the program's end-to-end classification — the
`fetch_page` 200 branch (whose success-log line turns every bare-sequence
body into `None`) composed with the driver's branching on the returned
value — is: a bare sequence body and a falsy body each count as a failed
call, and every other body is normalised exactly as the specification's
rule says, giving `Empty` for an empty record list and `Success`
otherwise. -/
theorem claim_C2 (oracle : Nat → HttpEvent) (offset a : Nat) (data : Json)
    (h : oracle a = HttpEvent.response 200 (some data))
    (hwf : dataFieldOk data = true) :
    (fetch_page oracle offset a).result
      = (if logLenOk data then some data else none)
    ∧ classify (fetch_page oracle offset a).result
        = classify200Amended data := by
  have hres : (fetch_page oracle offset a).result
      = (if logLenOk data then some data else none) := by
    rw [fetch_page.eq_def, h]
    simp
  refine ⟨hres, ?_⟩
  rw [hres]
  cases data with
  | obj fields =>
    cases hl : fields.lookup "data" with
    | some v =>
      have hne := lookup_ne_nil hl
      cases v with
      | arr l =>
        have hlog : logLenOk (Json.obj fields) = true := by
          simp [logLenOk, hl, hasLen]
        cases l with
        | nil =>
          simp [hlog, classify, truthy, normRecords, hl, hne, specClassify,
            specNormalize, pyElems, classify200Amended]
        | cons x xs =>
          simp [hlog, classify, truthy, normRecords, hl, hne, specClassify,
            specNormalize, pyElems, classify200Amended]
      | obj g => simp [dataFieldOk, hl] at hwf
      | str s => simp [dataFieldOk, hl] at hwf
      | num n => simp [dataFieldOk, hl] at hwf
      | bool b => simp [dataFieldOk, hl] at hwf
      | null => simp [dataFieldOk, hl] at hwf
    | none =>
      have hlog : logLenOk (Json.obj fields) = true := by
        simp [logLenOk, hl]
      by_cases ht : fields.isEmpty
      · simp [hlog, classify, truthy, normRecords, hl, ht, specClassify,
          specNormalize, classify200Amended]
      · simp [hlog, classify, truthy, normRecords, hl, ht, specClassify,
          specNormalize, pyElems, classify200Amended]
  | arr l =>
    simp [logLenOk, classify, classify200Amended]
  | str s =>
    by_cases hs : s.isEmpty
    · simp [logLenOk, classify, truthy, hs, specClassify, specNormalize,
        classify200Amended]
    · simp [logLenOk, classify, truthy, hs, normRecords, specClassify,
        specNormalize, pyElems, classify200Amended]
  | num n =>
    by_cases hn : n = 0
    · simp [logLenOk, classify, truthy, hn, specClassify, specNormalize,
        classify200Amended]
    · simp [logLenOk, classify, truthy, hn, normRecords, specClassify,
        specNormalize, pyElems, classify200Amended]
  | bool b =>
    cases b <;>
      simp [logLenOk, classify, truthy, normRecords, specClassify,
        specNormalize, pyElems, classify200Amended]
  | null =>
    simp [logLenOk, classify, truthy, specClassify, specNormalize,
      classify200Amended]

/-- Fetch oracle for the C2 counterexample: every attempt answers HTTP 200
with the bare-sequence body `["x"]`. -/
def c2cexOracle : Nat → HttpEvent :=
  fun _ => HttpEvent.response 200 (some (Json.arr [Json.str "x"]))

/-- C2 counterexample: the claim as stated demands that the truthy
bare-sequence HTTP 200 body `["x"]` be used directly as the record list and
classified `Success(["x"])`; the program instead counts a failed call — the
success-log line of `fetch_page` evaluates `data.get` on the list, raising
`AttributeError`, which the generic handler turns into a returned `None`,
the driver's failure branch. -/
theorem claim_C2_cex :
    (fetch_page c2cexOracle 0 0).result = none
    ∧ classify (fetch_page c2cexOracle 0 0).result = PageClass.failure
    ∧ specClassify (Json.arr [Json.str "x"])
        = PageClass.success [Json.str "x"]
    ∧ classify (fetch_page c2cexOracle 0 0).result
        ≠ specClassify (Json.arr [Json.str "x"]) := by
  have hres : (fetch_page c2cexOracle 0 0).result = none := by
    rw [fetch_page.eq_def]
    simp [c2cexOracle, logLenOk]
  refine ⟨hres, ?_, rfl, ?_⟩
  · rw [hres]
    rfl
  · rw [hres]
    intro hcon
    exact PageClass.noConfusion hcon

/-- Fetch oracle for the C2 witness: every attempt answers HTTP 200 with a
dict body carrying one record in its `"data"` field. -/
def c2wOracle : Nat → HttpEvent :=
  fun _ => HttpEvent.response 200
    (some (Json.obj [("data", Json.arr [Json.str "x"])]))

theorem claim_C2_witness :
    (fetch_page c2wOracle 7 0).result
      = (if logLenOk (Json.obj [("data", Json.arr [Json.str "x"])])
         then some (Json.obj [("data", Json.arr [Json.str "x"])]) else none)
    ∧ classify (fetch_page c2wOracle 7 0).result
        = classify200Amended (Json.obj [("data", Json.arr [Json.str "x"])]) :=
  claim_C2 c2wOracle 7 0 (Json.obj [("data", Json.arr [Json.str "x"])])
    rfl rfl

/-- C3: whenever three consecutive loop positions `k, k+1, k+2` are
classified as empty responses, the driver performs no fetch beyond position
`k+2` — its trace never exceeds `k+3` fetches, however large the computed
page budget is.  (The cumulative counter of the code only strengthens this:
it reaches 3 at the latest on the third consecutive empty page.) -/
theorem claim_C3 (fetchO : Nat → Option Json) (limit tp k : Nat)
    (h0 : (classify (fetchO (k * limit))).isEmptyTag = true)
    (h1 : (classify (fetchO ((k + 1) * limit))).isEmptyTag = true)
    (h2 : (classify (fetchO ((k + 2) * limit))).isEmptyTag = true) :
    (scrape_all_pages fetchO limit tp).trace.length ≤ k + 3 := by
  by_contra hlen
  push_neg at hlen
  have hwin : countEmptyIn fetchO limit k 3 = 3 := by
    show (List.range' k 3).countP _ = 3
    rw [show List.range' k 3 = [k, k + 1, k + 2] from rfl]
    simp [List.countP_cons, h0, h1, h2]
  have hsplit : countEmptyIn fetchO limit 0 (k + 3)
      = countEmptyIn fetchO limit 0 k + countEmptyIn fetchO limit k 3 := by
    unfold countEmptyIn
    rw [show k + 3 = 3 + k from by omega]
    rw [← List.range'_append 0 k 3 1]
    simp [List.countP_append]
  rw [scrape_all_pages_eq] at hlen
  have hstop := (scrapeLoop_no_early_stop fetchO limit (actualPages limit tp)
    0 initialRunState (k + 2) (by omega)).1
  rw [Nat.zero_add] at hstop
  have := hstop h2
  rw [show k + 2 + 1 = k + 3 from by omega] at this
  simp only [initialRunState] at this
  omega

/-- C4: a failure classification always increments `failed_calls` and stops
the loop exactly when the counter reaches 10; the final failure counter
equals the number of failure-classified pages processed; a page processed
without ending the run had a cumulative failure count below 10; and a run
that returned early with fewer than 10 failures can only have stopped via
the empty-response streak, never the failure circuit breaker. -/
theorem claim_C4 (fetchO : Nat → Option Json) (limit tp : Nat) :
    (∀ (st : RunState) (pd : Option Json), classify pd = PageClass.failure →
      pageStep st pd
        = if 10 ≤ st.failed_calls + 1
          then StepOut.halt { st with failed_calls := st.failed_calls + 1 }
          else StepOut.next { st with failed_calls := st.failed_calls + 1 })
    ∧ (∀ st', (scrape_all_pages fetchO limit tp).final = some st' →
        st'.failed_calls = countFailIn fetchO limit 0
          (scrape_all_pages fetchO limit tp).trace.length)
    ∧ (∀ i, i + 1 < (scrape_all_pages fetchO limit tp).trace.length →
        (classify (fetchO (i * limit))).isFailTag = true →
        countFailIn fetchO limit 0 (i + 1) < 10)
    ∧ (∀ st', (scrape_all_pages fetchO limit tp).final = some st' →
        (scrape_all_pages fetchO limit tp).trace.length < actualPages limit tp →
        st'.failed_calls < 10 → 3 ≤ st'.empty_responses) := by
  refine ⟨?_, ?_, ?_, ?_⟩
  · intro st pd hc
    simp [pageStep, hc]
  · intro st' hfin
    rw [scrape_all_pages_eq] at hfin ⊢
    have := (scrapeLoop_final_counts fetchO limit (actualPages limit tp) 0
      initialRunState st' hfin).2.2.1
    simpa [initialRunState] using this
  · intro i hi hcls
    rw [scrape_all_pages_eq] at hi
    have := (scrapeLoop_no_early_stop fetchO limit (actualPages limit tp) 0
      initialRunState i hi).2
    rw [Nat.zero_add] at this
    have h10 := this hcls
    simpa [initialRunState] using h10
  · intro st' hfin hlen hf10
    rw [scrape_all_pages_eq] at hfin hlen
    have := scrapeLoop_stop_reason fetchO limit (actualPages limit tp) 0
      initialRunState st' hfin hlen
    omega

theorem claim_C3_witness :
    (scrape_all_pages (fun _ => some (Json.obj [("data", Json.arr [])]))
      12 10).trace.length ≤ 0 + 3 :=
  claim_C3 (fun _ => some (Json.obj [("data", Json.arr [])])) 12 10 0
    rfl rfl rfl

theorem claim_C4_witness :
    RunState.failed_calls
      { all_data := [], successful_calls := 0, failed_calls := 10,
        empty_responses := 0 }
      = countFailIn (fun _ => none) 12 0
          (scrape_all_pages (fun _ => none) 12 10).trace.length :=
  (claim_C4 (fun _ => none) 12 10).2.1
    { all_data := [], successful_calls := 0, failed_calls := 10,
      empty_responses := 0 } rfl

/-- Every HTTP request issued inside one `fetch_page` invocation targets the
offset the invocation was entered with: retries re-request the same page. -/
theorem fetch_page_same_offset (oracle : Nat → HttpEvent) (offset : Nat) :
    ∀ (n a : Nat), 4 - a ≤ n →
      ∀ c ∈ (fetch_page oracle offset a).calls, c.fst = offset := by
  intro n
  induction n with
  | zero =>
    intro a h1 c hc
    have ha3 : ¬ a < 3 := by omega
    have ha2 : ¬ a < 2 := by omega
    unfold fetch_page at hc
    cases ho : oracle a with
    | response code body =>
      rw [ho] at hc
      by_cases h200 : code = 200
      · subst h200
        simp at hc
        rw [hc]
      · by_cases h429 : code = 429
        · subst h429
          simp [ha3] at hc
          rw [hc]
        · by_cases h5xx : code = 500 ∨ code = 502 ∨ code = 503 ∨ code = 504
          · simp [h200, h429, h5xx, ha2] at hc
            rw [hc]
          · simp [h200, h429, h5xx] at hc
            rw [hc]
    | timeout =>
      rw [ho] at hc
      simp [ha2] at hc
      rw [hc]
    | connError =>
      rw [ho] at hc
      simp [ha2] at hc
      rw [hc]
    | otherError =>
      rw [ho] at hc
      simp at hc
      rw [hc]
  | succ n ih =>
    intro a h1 c hc
    unfold fetch_page at hc
    cases ho : oracle a with
    | response code body =>
      rw [ho] at hc
      by_cases h200 : code = 200
      · subst h200
        simp at hc
        rw [hc]
      · by_cases h429 : code = 429
        · subst h429
          by_cases ha3 : a < 3
          · simp [ha3] at hc
            rcases hc with hc | hc
            · rw [hc]
            · exact ih (a + 1) (by omega) c hc
          · simp [ha3] at hc
            rw [hc]
        · by_cases h5xx : code = 500 ∨ code = 502 ∨ code = 503 ∨ code = 504
          · by_cases ha2 : a < 2
            · simp [h200, h429, h5xx, ha2] at hc
              rcases hc with hc | hc
              · rw [hc]
              · exact ih (a + 1) (by omega) c hc
            · simp [h200, h429, h5xx, ha2] at hc
              rw [hc]
          · simp [h200, h429, h5xx] at hc
            rw [hc]
    | timeout =>
      rw [ho] at hc
      by_cases ha2 : a < 2
      · simp [ha2] at hc
        rcases hc with hc | hc
        · rw [hc]
        · exact ih (a + 1) (by omega) c hc
      · simp [ha2] at hc
        rw [hc]
    | connError =>
      rw [ho] at hc
      by_cases ha2 : a < 2
      · simp [ha2] at hc
        rcases hc with hc | hc
        · rw [hc]
        · exact ih (a + 1) (by omega) c hc
      · simp [ha2] at hc
        rw [hc]
    | otherError =>
      rw [ho] at hc
      simp at hc
      rw [hc]

/-- C5: on HTTP 429 at attempt `a` the fetcher first sleeps
`min(10 * 2^a, 60)` seconds (10, 20, 40 and 60 seconds at attempts 0-3);
while `a < 3` it then re-requests the same offset at attempt `a+1` and
returns whatever that retry returns; from attempt 3 on the outcome is the
terminal failure (`None`, the driver's `RateLimited` surface) and no further
request is issued for this page; every request of the invocation targets the
same offset. -/
theorem claim_C5 (oracle : Nat → HttpEvent) (offset a : Nat) (b : Option Json)
    (h : oracle a = HttpEvent.response 429 b) :
    (fetch_page oracle offset a).waits.head? = some (min (10 * 2 ^ a) 60)
    ∧ (a < 3 →
        (fetch_page oracle offset a).calls
          = (offset, a) :: (fetch_page oracle offset (a + 1)).calls
        ∧ (fetch_page oracle offset a).result
          = (fetch_page oracle offset (a + 1)).result)
    ∧ (3 ≤ a →
        (fetch_page oracle offset a).result = none
        ∧ (fetch_page oracle offset a).calls = [(offset, a)]
        ∧ (fetch_page oracle offset a).waits = [min (10 * 2 ^ a) 60])
    ∧ min (10 * 2 ^ 0) 60 = 10 ∧ min (10 * 2 ^ 1) 60 = 20
    ∧ min (10 * 2 ^ 2) 60 = 40 ∧ min (10 * 2 ^ 3) 60 = 60
    ∧ ∀ c ∈ (fetch_page oracle offset a).calls, c.fst = offset := by
  have hsame : ∀ c ∈ (fetch_page oracle offset a).calls, c.fst = offset :=
    fetch_page_same_offset oracle offset (4 - a) a (le_refl (4 - a))
  by_cases ha : a < 3
  · have he : fetch_page oracle offset a =
        { result := (fetch_page oracle offset (a + 1)).result,
          waits := min (10 * 2 ^ a) 60 ::
            (fetch_page oracle offset (a + 1)).waits,
          calls := (offset, a) ::
            (fetch_page oracle offset (a + 1)).calls } := by
      conv_lhs => rw [fetch_page.eq_def]
      rw [h]
      simp [ha]
    rw [he]
    rw [he] at hsame
    refine ⟨rfl, fun _ => ⟨rfl, rfl⟩, fun h3 => absurd h3 (by omega), ?_⟩
    refine ⟨rfl, rfl, rfl, rfl, hsame⟩
  · have he : fetch_page oracle offset a =
        { result := none, waits := [min (10 * 2 ^ a) 60],
          calls := [(offset, a)] } := by
      conv_lhs => rw [fetch_page.eq_def]
      rw [h]
      simp [ha]
    rw [he]
    rw [he] at hsame
    refine ⟨rfl, fun h3 => absurd h3 (by omega), fun _ => ⟨rfl, rfl, rfl⟩, ?_⟩
    refine ⟨rfl, rfl, rfl, rfl, hsame⟩

theorem claim_C5_witness :
    (fetch_page (fun _ => HttpEvent.response 429 none) 5 3).result = none
    ∧ (fetch_page (fun _ => HttpEvent.response 429 none) 5 3).calls = [(5, 3)]
    ∧ (fetch_page (fun _ => HttpEvent.response 429 none) 5 3).waits
        = [min (10 * 2 ^ 3) 60] :=
  (claim_C5 (fun _ => HttpEvent.response 429 none) 5 3 none rfl).2.2.1
    (by decide)

/-- C6: for a positive page size the page budget is the exact integer
ceiling of `total_pages * 12 / page_size` (it covers the estimated record
count and is minimal with that property), and whatever the fetch outcomes,
the offsets actually requested are `0, page_size, 2 * page_size, ...` — the
trace equals `i * page_size` over consecutive `i` starting at 0 — with at
most `actual_pages` fetches issued. -/
theorem claim_C6 (limit tp : Nat) (hpos : 0 < limit) :
    (tp * 12 ≤ actualPages limit tp * limit
      ∧ ∀ m, tp * 12 ≤ m * limit → actualPages limit tp ≤ m)
    ∧ ∀ fetchO : Nat → Option Json,
        (scrape_all_pages fetchO limit tp).trace
          = (List.range (scrape_all_pages fetchO limit tp).trace.length).map
              (fun i => i * limit)
        ∧ (scrape_all_pages fetchO limit tp).trace.length
            ≤ actualPages limit tp := by
  refine ⟨actualPages_ceil limit tp hpos, fun fetchO => ?_⟩
  have h := scrapeLoop_trace_shape fetchO limit (actualPages limit tp) 0
    initialRunState
  rw [scrape_all_pages_eq, List.range_eq_range']
  exact h

theorem claim_C6_witness :
    456 * 12 ≤ actualPages 20 456 * 20 ∧ actualPages 20 456 ≤ 274 :=
  ⟨(claim_C6 20 456 (by decide)).1.1,
   (claim_C6 20 456 (by decide)).1.2 274 (by decide)⟩

/-- C7: when a run returns a final state, its aggregate is exactly the
concatenation, in page order (offset-ascending), of the record lists of the
processed pages classified as successes; and each success step appends its
records to the end of the aggregate, leaving the previously accumulated
records as an unchanged prefix and growing the length by exactly the number
of new records. -/
theorem claim_C7 (fetchO : Nat → Option Json) (limit tp : Nat) :
    (∀ st', (scrape_all_pages fetchO limit tp).final = some st' →
       st'.all_data = recordsJoin fetchO limit 0
         (scrape_all_pages fetchO limit tp).trace.length)
    ∧ (∀ (st : RunState) (pd : Option Json) (elems : List Json),
        classify pd = PageClass.success elems →
        pageStep st pd
          = StepOut.next { st with all_data := st.all_data ++ elems,
                                   successful_calls := st.successful_calls + 1 }
        ∧ (st.all_data ++ elems).length
            = st.all_data.length + elems.length) := by
  constructor
  · intro st' hfin
    rw [scrape_all_pages_eq] at hfin ⊢
    have := (scrapeLoop_final_counts fetchO limit (actualPages limit tp) 0
      initialRunState st' hfin).1
    simpa [initialRunState] using this
  · intro st pd elems hc
    exact ⟨by simp [pageStep, hc], List.length_append _ _⟩

/-- Fetch oracle for the C7 witness: two successful pages. -/
def c7Oracle : Nat → Option Json := fun offset =>
  if offset == 0 then some (Json.arr [Json.str "a", Json.str "b"])
  else some (Json.arr [Json.str "c"])

theorem claim_C7_witness :
    RunState.all_data
      { all_data := [Json.str "a", Json.str "b", Json.str "c"],
        successful_calls := 2, failed_calls := 0, empty_responses := 0 }
      = recordsJoin c7Oracle 12 0 (scrape_all_pages c7Oracle 12 2).trace.length :=
  (claim_C7 c7Oracle 12 2).1
    { all_data := [Json.str "a", Json.str "b", Json.str "c"],
      successful_calls := 2, failed_calls := 0, empty_responses := 0 } rfl

/-- C8: CSV export is a pure function of the aggregate — same input, same
output, and the aggregate is passed read-only.  Concretely: the emitted
header is a sorted, duplicate-free enumeration of exactly the union of the
keys of all (dict) records, and whenever a file is produced, either its
rows are precisely the records rendered in aggregate order against that
header, or the key union was empty and no rows were written. -/
theorem claim_C8 (data : List Json) (fn : String) :
    List.Sorted (· ≤ ·) (csvHeader data)
    ∧ (csvHeader data).Nodup
    ∧ (∀ k, k ∈ csvHeader data ↔ ∃ r ∈ data, k ∈ recordKeys r)
    ∧ (∀ out, (save_to_csv data fn true).2 = some out →
        (out.header = csvHeader data
          ∧ data.mapM (rowCells out.header) = some out.rows)
        ∨ (out.header = [] ∧ out.rows = [])) := by
  refine ⟨List.sorted_insertionSort _ _, ?_, ?_, ?_⟩
  · exact ((List.perm_insertionSort _ _).nodup_iff).mpr (List.nodup_dedup _)
  · intro k
    unfold csvHeader
    rw [List.Perm.mem_iff (List.perm_insertionSort _ _)]
    unfold allKeys
    rw [List.mem_dedup, List.mem_flatten]
    constructor
    · rintro ⟨l, hl, hkl⟩
      rw [List.mem_map] at hl
      obtain ⟨r, hr, rfl⟩ := hl
      exact ⟨r, hr, hkl⟩
    · rintro ⟨r, hr, hkr⟩
      exact ⟨recordKeys r, List.mem_map_of_mem _ hr, hkr⟩
  · intro out hout
    by_cases hemp : data.isEmpty
    · simp [save_to_csv, hemp] at hout
    · by_cases hh : (csvHeader data).isEmpty
      · simp [save_to_csv, hemp, hh] at hout
        subst hout
        exact Or.inr ⟨rfl, rfl⟩
      · cases hm : data.mapM (rowCells (csvHeader data)) with
        | some rows =>
          unfold save_to_csv at hout
          rw [hm] at hout
          simp [hemp, hh] at hout
          subst hout
          exact Or.inl ⟨rfl, hm⟩
        | none =>
          unfold save_to_csv at hout
          rw [hm] at hout
          simp [hemp, hh] at hout

/-- Aggregate for the C8 witness: two records over a single key. -/
def c8Data : List Json :=
  [Json.obj [("a", Json.num 1)], Json.obj [("a", Json.num 2)]]

/-- CSV file produced from `c8Data`. -/
def c8Out : CsvFile :=
  { header := ["a"], rows := [[some (Json.num 1)], [some (Json.num 2)]] }

theorem claim_C8_witness :
    (c8Out.header = csvHeader c8Data
      ∧ c8Data.mapM (rowCells c8Out.header) = some c8Out.rows)
    ∨ (c8Out.header = [] ∧ c8Out.rows = []) :=
  (claim_C8 c8Data "narpm_members.csv").2.2.2 c8Out rfl

/-- C9: when the file write raises, both exporters swallow the exception
and return the empty filename with no file content — a failed export never
propagates an exception to the caller. -/
theorem claim_C9 (data : List Json) (fn now : String) (limit : Nat)
    (delayCfg : Json) :
    save_to_json data fn now limit delayCfg false = ("", none)
    ∧ save_to_csv data fn false = ("", none) := by
  constructor
  · simp [save_to_json]
  · by_cases hemp : data.isEmpty <;> simp [save_to_csv, hemp]

/-- C10: one `fetch_page` invocation always terminates (it is a total
function of the event oracle) and issues at most 4 HTTP requests — the
initial attempt plus the up-to-3 rate-limit retries; when no attempt hits
HTTP 429, at most 3 requests are issued, matching the `retry_count < 2`
guards of the server-error, timeout and connection-error paths. -/
theorem claim_C10 (oracle : Nat → HttpEvent) (offset : Nat) :
    (fetch_page oracle offset 0).calls.length ≤ 4
    ∧ ((∀ k, is429 (oracle k) = false) →
        (fetch_page oracle offset 0).calls.length ≤ 3) := by
  constructor
  · have h := fetch_page_calls_bound oracle offset 4 0 (by omega) (by omega)
    simpa using h
  · intro hno
    have h := fetch_page_calls_bound_no429 oracle offset hno 3 0
      (by omega) (by omega)
    simpa using h

theorem claim_C10_witness :
    (fetch_page (fun _ => HttpEvent.timeout) 0 0).calls.length ≤ 3 :=
  (claim_C10 (fun _ => HttpEvent.timeout) 0).2 (fun _ => rfl)
